import Mathlib

/-!
Verification of the job-orchestration core of a Whisper transcription HTTP API
(`main.py`). The embedding models the two transcription paths (synchronous
`POST /transcribe` and asynchronous `POST /transcribe-async` plus its background
worker `process_transcription_async`), the in-memory job store records, the
temp-file staging paths, and the concurrency structure around the shared
transcription engine. Timestamps and probabilities are modelled as exact
rationals; the engine (`faster_whisper`) is an opaque external collaborator and
is modelled as a parameter.
-/

/-! ## Rounding model

Python's built-in `round(x, n)` rounds to `n` decimal places with ties going to
the nearest even multiple (banker's rounding). We model it on exact rationals.
-/

/-- Round a rational to the nearest integer, ties to even (Python `round`). -/
def roundHalfEven (x : ℚ) : ℤ :=
  if x - ⌊x⌋ < 1/2 then ⌊x⌋
  else if 1/2 < x - ⌊x⌋ then ⌊x⌋ + 1
  else if Even ⌊x⌋ then ⌊x⌋ else ⌊x⌋ + 1

/-- Model of Python `round(x, n)`: round to `n` decimal places. -/
def pyRound (x : ℚ) (n : ℕ) : ℚ :=
  (roundHalfEven (x * (10:ℚ)^n) : ℚ) / (10:ℚ)^n

/-! ## Engine output model

The external engine call
`whisper_model.transcribe(path, ...) -> (segments, info)` yields an ordered
stream of segments, each with `start`, `end`, `text`, and an info object with
`language`, `language_probability` and (optionally populated)
`all_language_probs`. `all_language_probs` is modelled as a `List`; the code
guards on `hasattr(info, 'all_language_probs') and info.all_language_probs`,
i.e. on the attribute being present and truthy (non-empty), so an absent
attribute and an empty list behave identically and are both modelled by `[]`.
-/

/-- One segment produced by the engine: `seg.start`, `seg.end`, `seg.text`. -/
structure EngineSegment where
  start : ℚ
  endTime : ℚ
  text : String
deriving Repr, DecidableEq

/-- The `info` object returned by the engine next to the segment stream. -/
structure EngineInfo where
  language : String
  language_probability : ℚ
  all_language_probs : List (String × ℚ)
deriving Repr, DecidableEq

/-! ## Result assembly

Both paths turn the drained segment list into `segments_data` dictionaries and
a `transcript` string, then build the response/result dictionary. The two code
blocks are embedded separately (sync: `main.py` lines 90-122, async worker:
lines 211-238) so that their agreement is a theorem, not an assumption.
-/

/-- One entry of `segments_data`: `{"id": idx, "start": .., "end": .., "text": ..}`. -/
structure SegmentData where
  id : ℕ
  start : ℚ
  endTime : ℚ
  text : String
deriving Repr, DecidableEq

/-- The assembled response/result dictionary common to both paths:
`success`, `transcript`, `language`, `language_probability`, `segments`, and
the optional `all_language_candidates` key. -/
structure TranscriptionResult where
  success : Bool
  transcript : String
  language : String
  language_probability : ℚ
  segments : List SegmentData
  all_language_candidates : Option (List (String × ℚ))
deriving Repr, DecidableEq

/-- Sync path `segments_data` (`main.py` lines 93-101): raw `seg.start` /
`seg.end`, no rounding applied. -/
def syncSegmentsData (segs : List EngineSegment) : List SegmentData :=
  segs.enum.map fun p => ⟨p.1, p.2.start, p.2.endTime, p.2.text⟩

/-- Async worker `segments_data` (`main.py` lines 214-222): `start` and `end`
rounded to 2 decimal places. -/
def asyncSegmentsData (segs : List EngineSegment) : List SegmentData :=
  segs.enum.map fun p => ⟨p.1, pyRound p.2.start 2, pyRound p.2.endTime 2, p.2.text⟩

/-- `transcript = " ".join([seg.text for seg in segments_list])` (both paths). -/
def transcriptOf (segs : List EngineSegment) : String :=
  String.intercalate " " (segs.map (·.text))

/-- Sync path response (`main.py` lines 107-120): `language_probability`
rounded to 4 places, top-10 candidates each rounded to 4 places when
`all_language_probs` is present and truthy; segment timestamps left raw. -/
def buildSyncResponse (segs : List EngineSegment) (info : EngineInfo) :
    TranscriptionResult :=
  { success := true
    transcript := transcriptOf segs
    language := info.language
    language_probability := pyRound info.language_probability 4
    segments := syncSegmentsData segs
    all_language_candidates :=
      if info.all_language_probs ≠ [] then
        some ((info.all_language_probs.take 10).map fun c => (c.1, pyRound c.2 4))
      else none }

/-- Async worker result (`main.py` lines 225-238): same fields, but segment
timestamps come from the rounded `asyncSegmentsData`. -/
def buildAsyncResult (segs : List EngineSegment) (info : EngineInfo) :
    TranscriptionResult :=
  { success := true
    transcript := transcriptOf segs
    language := info.language
    language_probability := pyRound info.language_probability 4
    segments := asyncSegmentsData segs
    all_language_candidates :=
      if info.all_language_probs ≠ [] then
        some ((info.all_language_probs.take 10).map fun c => (c.1, pyRound c.2 4))
      else none }

/-! ## Language parameter handling

Both endpoints declare `language: str = None` and branch on `if language:`,
i.e. on Python truthiness of the value: `None` and the empty string are both
falsy, any non-empty string is truthy. The truthy branch passes
`language=language` to the engine; the falsy branch omits the argument
(auto-detect). -/

/-- Python truthiness of the optional `language` parameter. -/
def languageTruthy : Option String → Bool
  | none => false
  | some s => !(s == "")

/-- The language hint actually handed to `whisper_model.transcribe`: the
caller's value when truthy, otherwise no hint (auto-detect). -/
def engineLanguageArg (language : Option String) : Option String :=
  if languageTruthy language then language else none

/-! ## Staging paths (Temp Resource Manager)

Sync path (`main.py` line 58): `temp_file = temp_dir / file.filename`.
Async path (line 154): `temp_file = temp_dir / f"{job_id}_{file.filename}"`. -/

/-- The two submission paths. -/
inductive SubmissionKind
  | sync
  | async
deriving Repr, DecidableEq

/-- Staged temp-file path for a submission, as built by the code. The sync
path ignores the job identifier entirely. -/
def stagePath : SubmissionKind → (jobId : String) → (filename : String) → String
  | .sync, _, filename => "./temp/" ++ filename
  | .async, jobId, filename => "./temp/" ++ jobId ++ "_" ++ filename

/-! ## Job store records

`jobs[job_id]` is a dict; its keys over the job lifecycle are modelled as a
structure with optional fields. The completed update merges the whole result
dictionary into the record (`**result`); this is modelled by the optional
`result` field holding the merged `TranscriptionResult`. Status values are the
exact strings the code writes: `"queued"`, `"processing"`, `"completed"`,
`"error"`. Timestamps (`datetime.utcnow().isoformat()`) are opaque strings. -/

/-- One job record in the in-memory `jobs` store. -/
structure JobRecord where
  status : String
  created_at : String
  filename : String
  language_requested : Option String
  started_at : Option String := none
  completed_at : Option String := none
  result : Option TranscriptionResult := none
  error : Option String := none
deriving Repr, DecidableEq

/-- The spec's abstract status enumeration `Queued, Processing, Completed,
Failed` (§3). -/
inductive JobStatus
  | queued
  | processing
  | completed
  | failed
deriving Repr, DecidableEq

/-- Correspondence between the wire strings written by the code and the
spec's enumeration: the code's terminal failure string is `"error"`, which is
the spec's `Failed` state. -/
def statusAbs (s : String) : Option JobStatus :=
  if s = "queued" then some .queued
  else if s = "processing" then some .processing
  else if s = "completed" then some .completed
  else if s = "error" then some .failed
  else none

/-- Terminal states of the enumeration. -/
def JobStatus.isTerminal : JobStatus → Bool
  | .completed => true
  | .failed => true
  | _ => false

/-- Initial record written by `transcribe_async` (`main.py` lines 160-165). -/
def initialJobRecord (filename : String) (language : Option String)
    (t0 : String) : JobRecord :=
  { status := "queued"
    created_at := t0
    filename := filename
    language_requested := language }

/-- Worker update on claim (`main.py` lines 186-188): status `"processing"`,
`started_at` recorded. -/
def markProcessing (r : JobRecord) (t1 : String) : JobRecord :=
  { r with status := "processing", started_at := some t1 }

/-- Worker update on success (`main.py` lines 241-246): status `"completed"`,
`completed_at`, and the whole result dict merged in. -/
def markCompleted (r : JobRecord) (res : TranscriptionResult)
    (t2 : String) : JobRecord :=
  { r with status := "completed", completed_at := some t2, result := some res }

/-- Worker update on engine error (`main.py` lines 252-257): status
`"error"`, the stringified exception, `completed_at`. -/
def markFailed (r : JobRecord) (e : String) (t2 : String) : JobRecord :=
  { r with status := "error", error := some e, completed_at := some t2 }

/-! ## The asynchronous worker

`process_transcription_async(job_id, file_path, language)` runs in the thread
pool. Its interaction with the store is the sequence of atomic
`with jobs_lock:` updates; the engine call is modelled as a function from the
language hint to either an output or a raised error (`Except`). The `finally`
block removes the staged file inside its own `try/except`, so a removal
failure only produces a log warning. The worker function itself is total (the
bare `except Exception` catches every engine error), which embeds the fact
that no error is ever re-raised to a caller. -/

/-- Outcome of the engine call: drained segments plus info, or a raised error. -/
abbrev EngineOutcome := Except String (List EngineSegment × EngineInfo)

/-- Outcome of `os.remove` on the staged file. -/
inductive RemoveOutcome
  | ok
  | fails
deriving Repr, DecidableEq

/-- Observable effects of one worker run: the final job record and whether the
cleanup `except` branch logged a removal-failure warning. -/
structure WorkerRun where
  record : JobRecord
  removalWarningLogged : Bool
deriving Repr, DecidableEq

/-- The terminal record the worker writes: the success or failure update
applied to the `"processing"` record, chosen by the engine outcome. -/
def asyncFinalRecord (filename : String) (language : Option String)
    (engine : Option String → EngineOutcome)
    (t0 t1 t2 : String) : JobRecord :=
  let r1 := markProcessing (initialJobRecord filename language t0) t1
  match engine (engineLanguageArg language) with
  | .ok (segs, info) => markCompleted r1 (buildAsyncResult segs info) t2
  | .error e => markFailed r1 e t2

/-- The successive values of `jobs[job_id]` for one async job: the `"queued"`
record written by `transcribe_async`, the `"processing"` update, and the
terminal update chosen by the engine outcome. -/
def asyncJobTrace (filename : String) (language : Option String)
    (engine : Option String → EngineOutcome)
    (t0 t1 t2 : String) : List JobRecord :=
  [initialJobRecord filename language t0,
   markProcessing (initialJobRecord filename language t0) t1,
   asyncFinalRecord filename language engine t0 t1 t2]

/-- The worker `process_transcription_async`: final record plus cleanup
behaviour. The removal outcome never influences the record (the `finally`
block swallows removal errors), only the warning log. -/
def process_transcription_async (filename : String) (language : Option String)
    (engine : Option String → EngineOutcome) (removal : RemoveOutcome)
    (t0 t1 t2 : String) : WorkerRun :=
  { record := asyncFinalRecord filename language engine t0 t1 t2
    removalWarningLogged := decide (removal = .fails) }

/-! ## The synchronous endpoint

`POST /transcribe` (`main.py` lines 42-129) stages the upload, invokes the
engine inline, assembles the response, and removes the staged file *inside*
the main `try`, before the response is built. A raised removal error is caught
by the bare `except` at line 124, whose cleanup re-attempt
(`if temp_file.exists(): os.remove(temp_file)`) raises the same error again
and escapes the handler, so the caller receives a 5xx. Staging I/O failures
(open/copy) also flow into the same `except`; they are not separately
modelled, as no claim depends on them. -/

/-- What kind of 5xx error the sync endpoint surfaces to the caller. -/
inductive SyncError
  | engine (detail : String)
  | cleanup
deriving Repr, DecidableEq

/-- Observable outcome of one `POST /transcribe` request: the HTTP-level
result and whether the staged file was removed. -/
structure SyncRun where
  response : Except SyncError TranscriptionResult
  fileRemoved : Bool
deriving Repr

/-- The `transcribe` endpoint handler. `engine` is the opaque
`whisper_model.transcribe` call keyed by the language hint actually passed;
`removal` is the outcome of `os.remove` on the staged file. -/
def transcribe (language : Option String)
    (engine : Option String → EngineOutcome)
    (removal : RemoveOutcome) : SyncRun :=
  match engine (engineLanguageArg language), removal with
  | .ok (segs, info), .ok => ⟨.ok (buildSyncResponse segs info), true⟩
  | .ok _, .fails => ⟨.error .cleanup, false⟩
  | .error e, .ok => ⟨.error (.engine e), true⟩
  | .error _, .fails => ⟨.error .cleanup, false⟩

/-! ## The asynchronous submission endpoint

`POST /transcribe-async` (`main.py` lines 131-180) stages the upload, writes
the `"queued"` record, submits the worker task, and returns 202. Its `except`
block (lines 178-180) only logs and raises `HTTPException`; it contains no
file removal. The disk is modelled as the list of staged paths. -/

/-- Where, if anywhere, `transcribe_async` raises after the file write. -/
inductive SubmitFault
  | ok
  | atJobStore
  | atExecutorSubmit
deriving Repr, DecidableEq

/-- Observable outcome of one `POST /transcribe-async` request. -/
structure AsyncSubmitRun where
  disk : List String
  jobStored : Option JobRecord
  taskSubmitted : Bool
  response : Except String (String × String × String)
deriving Repr

/-- The `transcribe_async` endpoint handler: the file write always precedes
the fallible steps, and the error path performs no cleanup. -/
def transcribe_async (jobId filename : String) (language : Option String)
    (disk : List String) (fault : SubmitFault) (t0 : String) : AsyncSubmitRun :=
  let disk1 := disk ++ [stagePath .async jobId filename]
  match fault with
  | .ok =>
      { disk := disk1
        jobStored := some (initialJobRecord filename language t0)
        taskSubmitted := true
        response := .ok (jobId, "queued", "/transcribe-status/" ++ jobId) }
  | .atJobStore =>
      { disk := disk1, jobStored := none, taskSubmitted := false
        response := .error "500" }
  | .atExecutorSubmit =>
      { disk := disk1
        jobStored := some (initialJobRecord filename language t0)
        taskSubmitted := false
        response := .error "500" }

/-! ## Engine concurrency model

Engine call sites: the worker threads of `executor = ThreadPoolExecutor
(max_workers=1)` (line 28) and the `POST /transcribe` handler, which runs the
engine directly on the event-loop thread (the handler is `async def` with no
`await` around the engine call, so sync requests serialize with each other but
run on a thread distinct from the executor's worker). The only lock in the
program, `jobs_lock`, is never held across an engine call, and the sync path
never touches it; so a sync-path engine entry is unguarded with respect to
the worker. The guard `workerInEngine < maxWorkers` encodes the executor's
pool size; no other serialization exists in the code. -/

/-- The executor's pool size: `ThreadPoolExecutor(max_workers=1)`. -/
def maxWorkers : ℕ := 1

/-- A snapshot of which threads are inside `whisper_model.transcribe`. -/
structure EngineState where
  pendingTasks : ℕ
  workerInEngine : ℕ
  syncInEngine : Bool
deriving Repr, DecidableEq

/-- Interleaving steps of the process. A worker may pick up a pending task
whenever a pool slot is free; the sync handler may enter the engine whenever
the event loop is not already inside it. Nothing couples the two. -/
inductive EngineStep : EngineState → EngineState → Prop
  | workerStart (p w b) : w < maxWorkers →
      EngineStep ⟨p + 1, w, b⟩ ⟨p, w + 1, b⟩
  | workerFinish (p w b) :
      EngineStep ⟨p, w + 1, b⟩ ⟨p, w, b⟩
  | syncStart (p w) :
      EngineStep ⟨p, w, false⟩ ⟨p, w, true⟩
  | syncFinish (p w) :
      EngineStep ⟨p, w, true⟩ ⟨p, w, false⟩

/-- States reachable from one submitted async task and an idle sync path. -/
def EngineReachable (s : EngineState) : Prop :=
  Relation.ReflTransGen EngineStep ⟨1, 0, false⟩ s

/-- The number of engine invocations executing in a snapshot. -/
def engineCallsActive (s : EngineState) : ℕ :=
  s.workerInEngine + (if s.syncInEngine then 1 else 0)

/-! ## Helper lemmas -/

/-- Mapping a function of the second component over `List.enum`. -/
lemma enum_map_snd_comp {α β : Type} (l : List α) (f : α → β) :
    l.enum.map (fun p => f p.2) = l.map f := by
  rw [show (fun p : ℕ × α => f p.2) = f ∘ Prod.snd from rfl, ← List.map_map,
    List.enum_map_snd]

/-- The texts of the sync `segments_data` are the engine texts, in order. -/
lemma syncSegmentsData_text (segs : List EngineSegment) :
    (syncSegmentsData segs).map SegmentData.text = segs.map EngineSegment.text := by
  unfold syncSegmentsData
  rw [List.map_map]
  exact enum_map_snd_comp segs EngineSegment.text

/-- The texts of the async `segments_data` are the engine texts, in order. -/
lemma asyncSegmentsData_text (segs : List EngineSegment) :
    (asyncSegmentsData segs).map SegmentData.text = segs.map EngineSegment.text := by
  unfold asyncSegmentsData
  rw [List.map_map]
  exact enum_map_snd_comp segs EngineSegment.text

/-- The ids of the sync `segments_data` are `0, 1, 2, ...` from `enumerate`. -/
lemma syncSegmentsData_id (segs : List EngineSegment) :
    (syncSegmentsData segs).map SegmentData.id = List.range segs.length := by
  unfold syncSegmentsData
  rw [List.map_map]
  exact List.enum_map_fst segs

/-- Rounding the timestamps of one `segments_data` entry to 2 decimal places. -/
def roundSegTimestamps (d : SegmentData) : SegmentData :=
  { d with start := pyRound d.start 2, endTime := pyRound d.endTime 2 }

/-- The async `segments_data` is the sync one with timestamps rounded. -/
lemma asyncSegmentsData_eq_round_sync (segs : List EngineSegment) :
    asyncSegmentsData segs = (syncSegmentsData segs).map roundSegTimestamps := by
  simp [asyncSegmentsData, syncSegmentsData, List.map_map, roundSegTimestamps]

/-! ## Claims -/

/-- Concrete engine segments for the C1 counterexample: a start timestamp of
1.234 seconds, which 2-decimal rounding would change. -/
def c1Segs : List EngineSegment := [⟨1234/1000, 5678/1000, "hi"⟩]

/-- Concrete engine info for the C1 counterexample. -/
def c1Info : EngineInfo := ⟨"en", 9/10, []⟩

/-- C1 (counterexample): a successful `POST /transcribe` can return a segment
whose `start` is not rounded to 2 decimal places: with an engine start
timestamp of 1.234 the sync response carries 1.234 itself, which differs from
its 2-decimal rounding. -/
theorem C1_counterexample :
    (transcribe none (fun _ => .ok (c1Segs, c1Info)) .ok).response
        = .ok (buildSyncResponse c1Segs c1Info)
    ∧ (buildSyncResponse c1Segs c1Info).segments.map SegmentData.start
        = [1234/1000]
    ∧ pyRound (1234/1000) 2 ≠ (1234/1000 : ℚ) := by
  refine ⟨rfl, by simp [buildSyncResponse, syncSegmentsData, c1Segs], ?_⟩
  norm_num [pyRound, roundHalfEven]

/-- C1 (amended): the synchronous response applies the same rules as the
async result for `transcript`, `language`, the 4-decimal rounding of
`language_probability` and of each candidate probability — but not for the
segment timestamps: the sync response returns the engine's raw `start`/`end`,
and the async `segments` equal the sync `segments` with both timestamps
rounded to 2 decimal places. -/
theorem C1_amended (segs : List EngineSegment) (info : EngineInfo) :
    (buildSyncResponse segs info).transcript = (buildAsyncResult segs info).transcript
    ∧ (buildSyncResponse segs info).language = (buildAsyncResult segs info).language
    ∧ (buildSyncResponse segs info).language_probability
        = pyRound info.language_probability 4
    ∧ (buildSyncResponse segs info).language_probability
        = (buildAsyncResult segs info).language_probability
    ∧ (buildSyncResponse segs info).all_language_candidates
        = (buildAsyncResult segs info).all_language_candidates
    ∧ (buildSyncResponse segs info).segments = syncSegmentsData segs
    ∧ (buildAsyncResult segs info).segments
        = (buildSyncResponse segs info).segments.map roundSegTimestamps := by
  refine ⟨rfl, rfl, rfl, rfl, rfl, rfl, ?_⟩
  simp [buildAsyncResult, buildSyncResponse, asyncSegmentsData_eq_round_sync]

/-- C8 (confirmed): on both paths the `transcript` equals the segment texts of
the response joined in ascending index order with a single separating space
(`String.intercalate " "`), the segment ids are `0, 1, 2, ...`, and an empty
segment list yields an empty transcript. -/
theorem C8_transcript_join (segs : List EngineSegment) (info : EngineInfo) :
    (buildSyncResponse segs info).transcript
        = String.intercalate " " ((buildSyncResponse segs info).segments.map SegmentData.text)
    ∧ (buildAsyncResult segs info).transcript
        = String.intercalate " " ((buildAsyncResult segs info).segments.map SegmentData.text)
    ∧ (buildSyncResponse segs info).segments.map SegmentData.id = List.range segs.length
    ∧ (buildSyncResponse [] info).transcript = ""
    ∧ (buildAsyncResult [] info).transcript = "" := by
  refine ⟨?_, ?_, ?_, rfl, rfl⟩
  · show transcriptOf segs
        = String.intercalate " " ((syncSegmentsData segs).map SegmentData.text)
    rw [syncSegmentsData_text]; rfl
  · show transcriptOf segs
        = String.intercalate " " ((asyncSegmentsData segs).map SegmentData.text)
    rw [asyncSegmentsData_text]; rfl
  · exact syncSegmentsData_id segs

/-- Splitting a character list at a separator character absent from both
left parts is injective. -/
lemma no_underscore_append_inj :
    ∀ (l1 l2 f1 f2 : List Char), '_' ∉ l1 → '_' ∉ l2 →
      l1 ++ '_' :: f1 = l2 ++ '_' :: f2 → l1 = l2 ∧ f1 = f2 := by
  intro l1
  induction l1 with
  | nil =>
    intro l2 f1 f2 _ h2 h
    cases l2 with
    | nil => simpa using h
    | cons b l2' =>
      simp only [List.nil_append, List.cons_append, List.cons.injEq] at h
      exact absurd (h.1 ▸ List.mem_cons_self b l2') h2
  | cons a l1' ih =>
    intro l2 f1 f2 h1 h2 h
    cases l2 with
    | nil =>
      simp only [List.nil_append, List.cons_append, List.cons.injEq] at h
      exact absurd (h.1 ▸ List.mem_cons_self a l1') (h.1 ▸ h1)
    | cons b l2' =>
      simp only [List.cons_append, List.cons.injEq] at h
      obtain ⟨hab, h'⟩ := h
      have hrec := ih l2' f1 f2 (fun hm => h1 (List.mem_cons_of_mem _ hm))
        (fun hm => h2 (List.mem_cons_of_mem _ hm)) h'
      exact ⟨by rw [hab, hrec.1], hrec.2⟩

/-- The character data of the async staging path, split at the `_` separator
the code inserts between `job_id` and the original filename. -/
lemma stagePath_async_data (j f : String) :
    (stagePath .async j f).data = "./temp/".data ++ (j.data ++ '_' :: f.data) := by
  have hu : ("_" : String).data = ['_'] := rfl
  simp [stagePath, String.data_append, hu]

/-- C4 (counterexample): the synchronous path stages to `./temp/<filename>`
with no job-id component, so two distinct submissions sharing an original
filename collide on disk. -/
theorem C4_counterexample :
    stagePath .sync "job-1" "a.wav" = stagePath .sync "job-2" "a.wav"
    ∧ ("job-1" : String) ≠ "job-2" :=
  ⟨rfl, by decide⟩

/-- C4 (amended): only the asynchronous path stages to a job-unique path:
for two submissions whose job identifiers differ and contain no underscore
(UUID4 strings never do), the async staged paths never collide, whatever the
original filenames; the sync path has no job-id component at all. -/
theorem C4_amended (j1 j2 f1 f2 : String)
    (h1 : '_' ∉ j1.data) (h2 : '_' ∉ j2.data) (hj : j1 ≠ j2) :
    stagePath .async j1 f1 ≠ stagePath .async j2 f2 := by
  intro h
  have hd := congrArg String.data h
  rw [stagePath_async_data, stagePath_async_data] at hd
  have hd' := List.append_cancel_left hd
  have hsplit := no_underscore_append_inj j1.data j2.data f1.data f2.data h1 h2 hd'
  exact hj (String.ext hsplit.1)

/-- Witness for C4 (amended) at two concrete UUID-like job ids sharing a
filename. -/
theorem C4_amended_witness :
    ('_' ∉ ("job-1" : String).data) ∧ ('_' ∉ ("job-2" : String).data)
    ∧ ("job-1" : String) ≠ "job-2"
    ∧ stagePath .async "job-1" "a.wav" ≠ stagePath .async "job-2" "a.wav" :=
  ⟨by decide, by decide, by decide,
    C4_amended "job-1" "job-2" "a.wav" "a.wav" (by decide) (by decide) (by decide)⟩

/-- C5 (counterexample): on the synchronous path a failure of `os.remove` on
the staged file is escalated to the HTTP caller: with a successful engine run
(empty segment list, detected language `en`) and a failing removal, the
handler's response is a 5xx, not the assembled result. -/
theorem C5_counterexample :
    (transcribe none (fun _ => .ok ([], ⟨"en", 1/2, []⟩)) .fails).response
      = .error .cleanup := rfl

/-- C5 (amended): on the asynchronous path a staged-file removal failure is
logged only and never escalated — the job's final record is identical whatever
the removal outcome; on the synchronous path, however, a removal failure is
escalated to the HTTP caller as a 5xx (even when transcription succeeded). -/
theorem C5_amended (filename : String) (language : Option String)
    (engine : Option String → EngineOutcome) (removal : RemoveOutcome)
    (t0 t1 t2 : String) :
    (process_transcription_async filename language engine removal t0 t1 t2).record
        = (process_transcription_async filename language engine .ok t0 t1 t2).record
    ∧ ((process_transcription_async filename language engine removal t0 t1 t2).removalWarningLogged
        = true ↔ removal = .fails)
    ∧ (transcribe language engine .fails).response = .error .cleanup := by
  refine ⟨rfl, by simp [process_transcription_async], ?_⟩
  cases h : engine (engineLanguageArg language) with
  | ok v => obtain ⟨segs, info⟩ := v; simp [transcribe, h]
  | error e => simp [transcribe, h]

/-- C9 (confirmed): if `POST /transcribe-async` fails after the upload was
written but before the 202 response (while creating the job record or while
submitting to the executor), the staged temp file stays on disk: the error
path removes nothing and the handler returns a 5xx. -/
theorem C9_submit_error_leaves_file (jobId filename : String)
    (language : Option String) (disk : List String) (fault : SubmitFault)
    (t0 : String) (h : fault ≠ .ok) :
    (transcribe_async jobId filename language disk fault t0).disk
        = disk ++ [stagePath .async jobId filename]
    ∧ stagePath .async jobId filename
        ∈ (transcribe_async jobId filename language disk fault t0).disk
    ∧ ∃ msg, (transcribe_async jobId filename language disk fault t0).response
        = .error msg := by
  cases fault with
  | ok => exact absurd rfl h
  | atJobStore => exact ⟨rfl, by simp [transcribe_async], ⟨"500", rfl⟩⟩
  | atExecutorSubmit => exact ⟨rfl, by simp [transcribe_async], ⟨"500", rfl⟩⟩

/-- Witness for C9 at a concrete submission failing in `executor.submit`. -/
theorem C9_witness :
    (SubmitFault.atExecutorSubmit ≠ SubmitFault.ok)
    ∧ ((transcribe_async "j1" "a.wav" none [] .atExecutorSubmit "t").disk
          = [] ++ [stagePath .async "j1" "a.wav"]
      ∧ stagePath .async "j1" "a.wav"
          ∈ (transcribe_async "j1" "a.wav" none [] .atExecutorSubmit "t").disk
      ∧ ∃ msg, (transcribe_async "j1" "a.wav" none [] .atExecutorSubmit "t").response
          = .error msg) :=
  ⟨by decide,
    C9_submit_error_leaves_file "j1" "a.wav" none [] .atExecutorSubmit "t" (by decide)⟩

/-- C10 (confirmed): an empty-string `language` is falsy in the `if language:`
guard, so on both paths it behaves exactly like an absent parameter: the
engine receives no language hint (auto-detect), the sync endpoint's behaviour
is identical, and the async worker's final record is identical except for the
verbatim `language_requested` echo stored at submission. -/
theorem C10_empty_language (filename : String)
    (engine : Option String → EngineOutcome) (removal : RemoveOutcome)
    (t0 t1 t2 : String) :
    engineLanguageArg (some "") = none
    ∧ engineLanguageArg none = none
    ∧ transcribe (some "") engine removal = transcribe none engine removal
    ∧ (process_transcription_async filename (some "") engine removal t0 t1 t2).record
        = { (process_transcription_async filename none engine removal t0 t1 t2).record
            with language_requested := some "" } := by
  refine ⟨rfl, rfl, rfl, ?_⟩
  cases h : engine none with
  | ok v =>
    obtain ⟨segs, info⟩ := v
    simp [process_transcription_async, asyncFinalRecord, engineLanguageArg,
      languageTruthy, h, markCompleted, markProcessing, initialJobRecord]
  | error e =>
    simp [process_transcription_async, asyncFinalRecord, engineLanguageArg,
      languageTruthy, h, markFailed, markProcessing, initialJobRecord]

/-- C3 (confirmed): for every async job whose engine call raises, the worker
ends the job in the terminal `Failed` state of the enumeration — written as
the wire string `"error"` — with the stringified exception as a descriptive
message and `completed_at` set; the worker is a total function (the bare
`except Exception` swallows the error), so nothing is re-raised to a caller. -/
theorem C3_engine_error_fails_job (filename : String) (language : Option String)
    (engine : Option String → EngineOutcome) (e : String)
    (removal : RemoveOutcome) (t0 t1 t2 : String)
    (h : engine (engineLanguageArg language) = .error e) :
    (process_transcription_async filename language engine removal t0 t1 t2).record.status
        = "error"
    ∧ statusAbs (process_transcription_async filename language engine removal t0 t1 t2).record.status
        = some .failed
    ∧ JobStatus.failed.isTerminal = true
    ∧ (process_transcription_async filename language engine removal t0 t1 t2).record.error
        = some e
    ∧ (process_transcription_async filename language engine removal t0 t1 t2).record.completed_at
        = some t2 := by
  simp [process_transcription_async, asyncFinalRecord, h, markFailed,
    markProcessing, initialJobRecord, statusAbs, JobStatus.isTerminal]

/-- Witness for C3 at a concrete always-failing engine. -/
theorem C3_witness :
    ((fun _ : Option String => (.error "boom" : EngineOutcome)) (engineLanguageArg none)
        = .error "boom")
    ∧ ((process_transcription_async "a.wav" none (fun _ => .error "boom") .ok "t0" "t1" "t2").record.status
          = "error"
      ∧ statusAbs (process_transcription_async "a.wav" none (fun _ => .error "boom") .ok "t0" "t1" "t2").record.status
          = some .failed
      ∧ JobStatus.failed.isTerminal = true
      ∧ (process_transcription_async "a.wav" none (fun _ => .error "boom") .ok "t0" "t1" "t2").record.error
          = some "boom"
      ∧ (process_transcription_async "a.wav" none (fun _ => .error "boom") .ok "t0" "t1" "t2").record.completed_at
          = some "t2") :=
  ⟨rfl, C3_engine_error_fails_job "a.wav" none (fun _ => .error "boom") "boom"
    .ok "t0" "t1" "t2" rfl⟩

/-- C6 (confirmed): the successive values written to a job's `status` field
are exactly `queued, processing, completed` or `queued, processing, error`
(abstractly `Queued, Processing, {Completed | Failed}`), so every observed
sequence of statuses is a prefix of that chain: nothing moves backward, skips
`Queued`, or re-enters a non-terminal state after the terminal write. -/
theorem C6_status_sequence (filename : String) (language : Option String)
    (engine : Option String → EngineOutcome) (t0 t1 t2 : String) :
    ((asyncJobTrace filename language engine t0 t1 t2).map fun r => statusAbs r.status)
        = [some .queued, some .processing, some .completed]
    ∨ ((asyncJobTrace filename language engine t0 t1 t2).map fun r => statusAbs r.status)
        = [some .queued, some .processing, some .failed] := by
  cases h : engine (engineLanguageArg language) with
  | ok v =>
    obtain ⟨segs, info⟩ := v
    left
    simp [asyncJobTrace, asyncFinalRecord, h, markCompleted, markProcessing,
      initialJobRecord, statusAbs]
  | error e =>
    right
    simp [asyncJobTrace, asyncFinalRecord, h, markFailed, markProcessing,
      initialJobRecord, statusAbs]

/-- C7 (confirmed): along the whole written lifecycle of an async job record,
a terminal status (`completed`/`error`) comes with exactly one of the result
payload and the error message populated, and a non-terminal status
(`queued`/`processing`) comes with neither. -/
theorem C7_result_error_exclusive (filename : String) (language : Option String)
    (engine : Option String → EngineOutcome) (t0 t1 t2 : String) (r : JobRecord)
    (hr : r ∈ asyncJobTrace filename language engine t0 t1 t2) :
    ((r.status = "completed" ∨ r.status = "error") →
        (r.result ≠ none ∧ r.error = none) ∨ (r.result = none ∧ r.error ≠ none))
    ∧ ((r.status = "queued" ∨ r.status = "processing") →
        r.result = none ∧ r.error = none) := by
  cases h : engine (engineLanguageArg language) with
  | ok v =>
    obtain ⟨segs, info⟩ := v
    simp only [asyncJobTrace, asyncFinalRecord, h, List.mem_cons,
      List.not_mem_nil, or_false] at hr
    rcases hr with h1 | h1 | h1 <;> subst h1 <;>
      simp [initialJobRecord, markProcessing, markCompleted]
  | error e =>
    simp only [asyncJobTrace, asyncFinalRecord, h, List.mem_cons,
      List.not_mem_nil, or_false] at hr
    rcases hr with h1 | h1 | h1 <;> subst h1 <;>
      simp [initialJobRecord, markProcessing, markFailed]

/-- Witness for C7 at the freshly queued record of a concrete job. -/
theorem C7_witness :
    initialJobRecord "a.wav" none "t0"
        ∈ asyncJobTrace "a.wav" none (fun _ => .error "boom") "t0" "t1" "t2"
    ∧ (((initialJobRecord "a.wav" none "t0").status = "queued"
          ∨ (initialJobRecord "a.wav" none "t0").status = "processing") →
        (initialJobRecord "a.wav" none "t0").result = none
        ∧ (initialJobRecord "a.wav" none "t0").error = none) :=
  ⟨by simp [asyncJobTrace],
    (C7_result_error_exclusive "a.wav" none (fun _ => .error "boom") "t0" "t1" "t2"
      (initialJobRecord "a.wav" none "t0") (by simp [asyncJobTrace])).2⟩

/-- C2 (counterexample): an engine invocation from the worker pool and one
from the synchronous endpoint can be in flight at the same instant: from one
queued task and an idle sync path, the worker enters the engine and then the
sync handler enters the engine on its own thread — nothing in the code stops
it — reaching a state with two active engine calls. -/
theorem C2_counterexample :
    EngineReachable ⟨0, 1, true⟩ ∧ 1 < engineCallsActive ⟨0, 1, true⟩ := by
  constructor
  · exact Relation.ReflTransGen.tail
      (Relation.ReflTransGen.tail Relation.ReflTransGen.refl
        (EngineStep.workerStart 0 0 false (by decide)))
      (EngineStep.syncStart 0 1)
  · simp [engineCallsActive]

/-- C2 (amended): the serialization boundary exists only inside the worker
pool: in every reachable state at most `max_workers = 1` engine invocations
run on pool threads, but the synchronous path shares no such boundary with the
pool, so a sync engine call may overlap a worker engine call. -/
theorem C2_amended_worker_serialized (s : EngineState)
    (h : EngineReachable s) : s.workerInEngine ≤ maxWorkers := by
  unfold EngineReachable at h
  induction h with
  | refl => exact Nat.zero_le _
  | tail _ step ih =>
    cases step with
    | workerStart p w b hw => show w + 1 ≤ maxWorkers; omega
    | workerFinish p w b =>
      have ih' : w + 1 ≤ maxWorkers := ih
      show w ≤ maxWorkers; omega
    | syncStart p w => exact ih
    | syncFinish p w => exact ih

/-- Witness for C2 (amended) at the initial state. -/
theorem C2_amended_witness :
    EngineReachable ⟨1, 0, false⟩
    ∧ (⟨1, 0, false⟩ : EngineState).workerInEngine ≤ maxWorkers :=
  ⟨Relation.ReflTransGen.refl,
    C2_amended_worker_serialized ⟨1, 0, false⟩ Relation.ReflTransGen.refl⟩
